import Mathlib

/-
  Verification of the exploration-technique core of the angr repository
  (src/angr/exploration_techniques/init module and
  src/angr/procedures/posix/select.py), as a shallow embedding in Lean 4.

  Part 1: the condition-to-matcher compiler (ExplorationTechnique._condition_to_lambda)
  and the metaclass signature adapter (ExplorationTechniqueMeta._filter_factory).

  Part 2: the select SimProcedure (select.run).
-/

set_option autoImplicit false

namespace AngrModel

/-- Kinds of Python exceptions that the block-introspection probe
(state.block) can raise at runtime.  The except clause in the source names
exactly the classes AngrError and SimError; every other exception class is
modelled by the constructor otherError. -/
inductive PyErr where
  | angrError
  | simError
  | otherError
  deriving DecidableEq

/-- The slice of an execution state that the matcher compiler observes:
the current address (state.addr) and the result of fetching the current
block and reading its instruction addresses
(state.block().instruction_addrs), which can raise. -/
structure SimState where
  addr : Nat
  blockInstructionAddrs : Except PyErr (List Nat)

/-- A value returned by a compiled condition function: either a Python
bool or a set of matched addresses (the source returns sets such as
set-of-state.addr or an intersection, and False / the default bool). -/
inductive CondResult where
  | bool (b : Bool)
  | addrs (s : Finset Nat)

/-- Python truthiness of a CondResult: a bool is its own truth value, a
set is truthy exactly when it is nonempty. -/
def truthy : CondResult → Bool
  | CondResult.bool b => b
  | CondResult.addrs s => decide (s ≠ ∅)

/-- The four supported shapes of a condition argument to
_condition_to_lambda, plus a constructor for every other Python value
(recording only the name of its class, which is all the error message
uses). -/
inductive Condition where
  | none
  | int (a : Nat)
  | seq (l : List Nat)
  | callable (f : SimState → Except PyErr CondResult)
  | other (typeName : String)

/-- The error raised for unsupported condition shapes
(AngrExplorationTechniqueError in the source). -/
inductive TechError where
  | angrExplorationTechniqueError (msg : String)

/-- The message built by the raise site in _condition_to_lambda; the
percent-s hole is filled with the class of the offending condition. -/
def unsupportedMsg (typeName : String) : String :=
  "ExplorationTechnique is unable to convert given type (" ++ typeName
    ++ ") to a callable condition function."

/-- The inner condition_function closure of the tuple/set/list branch of
_condition_to_lambda, lambda-lifted: it captures the compiled static
address set and the engine check
isinstance(self.project.engines.default_engine, engines.SimEngineVEX).
It first tests membership of state.addr, then the engine kind, then probes
state.block().instruction_addrs inside a try that catches exactly
AngrError and SimError; any other exception class propagates. -/
def condition_function (defaultEngineIsVEX : Bool) (static_addrs : Finset Nat)
    (state : SimState) : Except PyErr CondResult :=
  if state.addr ∈ static_addrs then
    Except.ok (CondResult.addrs {state.addr})
  else if !defaultEngineIsVEX then
    Except.ok (CondResult.bool false)
  else
    match state.blockInstructionAddrs with
    | Except.ok instrs =>
        Except.ok (CondResult.addrs (static_addrs ∩ instrs.toFinset))
    | Except.error PyErr.angrError => Except.ok (CondResult.bool false)
    | Except.error PyErr.simError => Except.ok (CondResult.bool false)
    | Except.error e => Except.error e

/-- The constant predicate of the None branch of _condition_to_lambda. -/
def noneCondFun (default : Bool) : SimState → Except PyErr CondResult :=
  fun _ => Except.ok (CondResult.bool default)

/-- The tuple/set/list branch of _condition_to_lambda: static_addrs is
set(condition) and the predicate is condition_function.  The int branch
reaches this after wrapping the address in a one-element tuple. -/
def condToLambdaSeq (defaultEngineIsVEX : Bool) (l : List Nat) :
    Except TechError ((SimState → Except PyErr CondResult) × Option (Finset Nat)) :=
  Except.ok (condition_function defaultEngineIsVEX l.toFinset, some l.toFinset)

/-- ExplorationTechnique._condition_to_lambda.  The engine membership test
performed inside the closure at call time is passed as the boolean
defaultEngineIsVEX.  Returns the pair (condition_function, static_addrs)
or raises AngrExplorationTechniqueError for unsupported shapes.  The int
branch of the source recurses as _condition_to_lambda((condition,)) with
the default parameter left at False. -/
def condToLambda (defaultEngineIsVEX : Bool) (condition : Condition)
    (default : Bool) :
    Except TechError ((SimState → Except PyErr CondResult) × Option (Finset Nat)) :=
  match condition with
  | Condition.none =>
      Except.ok (noneCondFun default, some (∅ : Finset Nat))
  | Condition.int a => condToLambdaSeq defaultEngineIsVEX [a]
  | Condition.seq l => condToLambdaSeq defaultEngineIsVEX l
  | Condition.callable f => Except.ok (f, Option.none)
  | Condition.other t =>
      Except.error (TechError.angrExplorationTechniqueError (unsupportedMsg t))

/-- A value returned by a filter hook.  The constructor undecided models
the Python value None (defer to the default); moveTo models returning a
stash name; moveToReplace models returning a pair of stash name and
replacement state. -/
inductive FilterResult where
  | undecided
  | moveTo (stash : String)
  | moveToReplace (stash : String) (state : SimState)

/-- The test ExplorationTechniqueMeta performs on a filter override before
wrapping it: inspect.getargspec(attrs[filter-key]).args[1] != simgr.  The
argument list starts with self, so index 1 is the first non-self
parameter. -/
def shouldWrapFilter (argspecArgs : List String) : Bool :=
  decide (argspecArgs.get? 1 ≠ some "simgr")

/-- ExplorationTechniqueMeta._filter_factory: wraps a legacy filter
override (call shape func(self, state)) into the canonical shape.  The
wrapper calls the legacy override first; if it returns None it falls back
to simgr.filter on the same state, otherwise it returns the legacy result
unchanged.  The simulation manager is modelled by the only piece of it the
wrapper uses, its filter method. -/
def filter_factory (func : SimState → FilterResult)
    (simgrFilter : SimState → FilterResult) (state : SimState) : FilterResult :=
  match func state with
  | FilterResult.undecided => simgrFilter state
  | r => r

/-- Symbolic bitvector expressions, modelling the claripy ASTs that
select.run manipulates: concrete values BVV(val, width), fresh symbols
BVS(name, width), concatenation and extraction.  Extraction bounds are
integers because the source computes slice bounds such as bit_offset - 1
that can be negative in Python; the expression is kept as an AST node and
its numeric semantics below clamps negative bounds, which no verified
property depends on. -/
inductive BVExpr where
  | bvv (val : Nat) (width : Nat)
  | bvs (name : String) (width : Nat)
  | concat (a b : BVExpr)
  | extract (hi lo : Int) (e : BVExpr)

/-- Bit width of a bitvector expression (claripy length). -/
def bvWidth : BVExpr → Nat
  | BVExpr.bvv _ w => w
  | BVExpr.bvs _ w => w
  | BVExpr.concat a b => bvWidth a + bvWidth b
  | BVExpr.extract hi lo _ => (hi - lo + 1).toNat

/-- Whether an expression contains a symbol (the claripy symbolic flag,
which is the disjunction over the leaves of the AST). -/
def bvSymbolic : BVExpr → Bool
  | BVExpr.bvv _ _ => false
  | BVExpr.bvs _ _ => true
  | BVExpr.concat a b => bvSymbolic a || bvSymbolic b
  | BVExpr.extract _ _ e => bvSymbolic e

/-- Numeric value of a bitvector expression under an assignment env of
the symbols, reduced modulo two to the width.  This models
state.solver.eval, which returns one satisfying concretization. -/
def evalBV (env : String → Nat) : BVExpr → Nat
  | BVExpr.bvv v w => v % 2 ^ w
  | BVExpr.bvs n w => env n % 2 ^ w
  | BVExpr.concat a b => evalBV env a * 2 ^ bvWidth b + evalBV env b
  | BVExpr.extract hi lo e =>
      (evalBV env e / 2 ^ lo.toNat) % 2 ^ (hi - lo + 1).toNat

/-- The only exception the modelled fd-scanning loop of select.run can
raise: the Python IndexError from subscripting long_array out of range. -/
inductive LoopErr where
  | indexError
  deriving DecidableEq

/-- Errors with which select.run can terminate: a failed assert statement,
or the IndexError escaping the fd-scanning loop. -/
inductive SelectErr where
  | assertionError
  | indexError
  deriving DecidableEq

/-- The slice of the SimProcedure execution context select.run uses: the
memory (as a map from concrete byte address to the stored word-sized
bitvector expression) and the solver concretization used by eval. -/
structure SelState where
  mem : Nat → BVExpr
  env : String → Nat

/-- Everything observable about one call to select.run: the outcome (a
raised exception or the returned bitvector), the final memory, and the
concrete byte addresses of the fd-set words loaded and stored. -/
structure SelectOutcome where
  result : Except SelectErr BVExpr
  mem : Nat → BVExpr
  loads : List Nat
  stores : List Nat

/-- One iteration of the fd bit loop of select.run at index i: subscript
long_array[long_pos] (IndexError when out of range), extract the bit at
bit_offset, and when the bit is symbolic or concretizes to 1 replace the
long by
long[arch_bits-1 : bit_offset+1].concat(BVS(fd_state,1)).concat(long[bit_offset-1:]). -/
def fdBitStep (env : String → Nat) (archBits : Nat) (arr : List BVExpr)
    (i : Nat) : Except LoopErr (List BVExpr) :=
  let long_pos := i / archBits
  let bit_offset := i % archBits
  match arr.get? long_pos with
  | Option.none => Except.error LoopErr.indexError
  | some long =>
    let bit := BVExpr.extract bit_offset bit_offset long
    if bvSymbolic bit || evalBV env bit == 1 then
      Except.ok (arr.set long_pos
        (BVExpr.concat
          (BVExpr.concat
            (BVExpr.extract ((archBits : Int) - 1) ((bit_offset : Int) + 1) long)
            (BVExpr.bvs "fd_state" 1))
          (BVExpr.extract ((bit_offset : Int) - 1) 0 long)))
    else
      Except.ok arr

/-- The fd bit loop of select.run: for i in range(0, nfds_v - 1), folding
fdBitStep over the long array. -/
def fdLoop (env : String → Nat) (archBits : Nat) (arr : List BVExpr)
    (n : Nat) : Except LoopErr (List BVExpr) :=
  List.foldlM (fun a i => fdBitStep env archBits a i) arr (List.range n)

/-- select.run.  Parameters mirror the source: the execution context st,
the architecture bit width, and the five call arguments as bitvector
expressions.  The two assert statements run first; then the fd-set words
are loaded, the bit loop runs, the words are stored back, and the return
value BVV(0,1).concat(BVS(select_ret,31)) is produced.  long_array_size is
computed in the integers because the Python expression (nfds_v - 1) + 7
mixes signs when nfds_v is 0; the operands are nonnegative overall, so
every integer division convention agrees with Python floor division
here. -/
def selectRun (st : SelState) (archBits : Nat)
    (nfds readfds writefds exceptfds timeout : BVExpr) : SelectOutcome :=
  if bvSymbolic writefds || evalBV st.env writefds != 0 then
    ⟨Except.error SelectErr.assertionError, st.mem, [], []⟩
  else if bvSymbolic exceptfds || evalBV st.env exceptfds != 0 then
    ⟨Except.error SelectErr.assertionError, st.mem, [], []⟩
  else
    let nfds_v := evalBV st.env nfds
    let arch_bytes := archBits / 8
    let readfdsAddr := evalBV st.env readfds
    let long_array_size := (((nfds_v : Int) - 1 + 7) / (archBits : Int)).toNat
    let loadAddrs := (List.range long_array_size).map
      (fun offset => readfdsAddr + offset * arch_bytes)
    let long_array := loadAddrs.map st.mem
    match fdLoop st.env archBits long_array (nfds_v - 1) with
    | Except.error _ =>
        ⟨Except.error SelectErr.indexError, st.mem, loadAddrs, []⟩
    | Except.ok arr =>
        let newMem := List.foldl
          (fun m p => fun a => if a = p.1 then p.2 else m a)
          st.mem (loadAddrs.zip arr)
        ⟨Except.ok (BVExpr.concat (BVExpr.bvv 0 1) (BVExpr.bvs "select_ret" 31)),
          newMem, loadAddrs, loadAddrs⟩

/-- C1: for a set condition S, when the state address is not in S and the
default engine is a SimEngineVEX, the compiled predicate returns the
intersection of S with the instruction addresses of the current block of
the state, an empty intersection being falsy. -/
theorem set_condition_block_intersection (l : List Nat) (d : Bool)
    (state : SimState) (instrs : List Nat)
    (h1 : state.addr ∉ l.toFinset)
    (h2 : state.blockInstructionAddrs = Except.ok instrs) :
    condToLambda true (Condition.seq l) d
        = Except.ok (condition_function true l.toFinset, some l.toFinset) ∧
    condition_function true l.toFinset state
        = Except.ok (CondResult.addrs (l.toFinset ∩ instrs.toFinset)) ∧
    (l.toFinset ∩ instrs.toFinset = ∅ →
      truthy (CondResult.addrs (l.toFinset ∩ instrs.toFinset)) = false) := by
  refine ⟨rfl, ?_, ?_⟩
  · simp [condition_function, h1, h2]
  · intro h
    simp [truthy, h]

/-- Witness for C1 at the spec instance: S is the two addresses 100 and
200, the state sits at 50 and its block covers 100, 300, 400; the matcher
returns the singleton set containing 100. -/
theorem set_condition_block_intersection_witness :
    ([100, 200].toFinset ∩ [100, 300, 400].toFinset : Finset Nat) = {100} ∧
    condition_function true ([100, 200].toFinset) ⟨50, Except.ok [100, 300, 400]⟩
      = Except.ok (CondResult.addrs ([100, 200].toFinset ∩ [100, 300, 400].toFinset)) := by
  refine ⟨by decide, ?_⟩
  exact (set_condition_block_intersection [100, 200] false
    ⟨50, Except.ok [100, 300, 400]⟩ [100, 300, 400] (by decide) rfl).2.1

/-- C2 counterexample: the except clause of the block-introspection path
names only AngrError and SimError, so an exception of any other class
raised by state.block propagates out of the compiled predicate instead of
being swallowed: at address 5 with set condition containing 1 and 2, a
probe raising an exception outside those two classes escapes to the
caller. -/
theorem probe_other_exception_propagates :
    condToLambda true (Condition.seq [1, 2]) false
      = Except.ok (condition_function true ([1, 2].toFinset), some ([1, 2].toFinset)) ∧
    condition_function true ([1, 2].toFinset) ⟨5, Except.error PyErr.otherError⟩
      = Except.error PyErr.otherError :=
  ⟨rfl, rfl⟩

/-- C2 amended: an AngrError or SimError raised while fetching or
evaluating the current block of the state inside the block-introspection
path is caught and the predicate returns the falsy bool false; exception
classes other than these two are not caught. -/
theorem probe_angr_sim_errors_caught (l : List Nat) (state : SimState)
    (err : PyErr)
    (h1 : state.addr ∉ l.toFinset)
    (h2 : state.blockInstructionAddrs = Except.error err)
    (h3 : err = PyErr.angrError ∨ err = PyErr.simError) :
    condition_function true l.toFinset state = Except.ok (CondResult.bool false) := by
  rcases h3 with h3 | h3 <;> subst h3 <;> simp [condition_function, h1, h2]

/-- Witness for the amended C2: an AngrError raised by the probe yields
the falsy bool false. -/
theorem probe_angr_sim_errors_caught_witness :
    condition_function true ([1, 2].toFinset) ⟨5, Except.error PyErr.angrError⟩
      = Except.ok (CondResult.bool false) :=
  probe_angr_sim_errors_caught [1, 2] ⟨5, Except.error PyErr.angrError⟩
    PyErr.angrError (by decide) rfl (Or.inl rfl)

/-- C3: a filter override whose first non-self parameter is not named
simgr is selected for wrapping by the metaclass, and the wrapper returns
the default simgr.filter result exactly when the legacy override returns
None, and otherwise returns the legacy decision unchanged, independent of
the default filter. -/
theorem legacy_filter_wrapper_fallback (p : String)
    (func simgrFilter simgrFilter2 : SimState → FilterResult)
    (state : SimState) (hp : p ≠ "simgr") :
    shouldWrapFilter ["self", p] = true ∧
    (func state = FilterResult.undecided →
      filter_factory func simgrFilter state = simgrFilter state) ∧
    (func state ≠ FilterResult.undecided →
      filter_factory func simgrFilter state = func state ∧
      filter_factory func simgrFilter state
        = filter_factory func simgrFilter2 state) := by
  refine ⟨by simp [shouldWrapFilter, hp], ?_, ?_⟩
  · intro h
    simp [filter_factory, h]
  · intro h
    cases hf : func state with
    | undecided => exact absurd hf h
    | moveTo s => simp [filter_factory, hf]
    | moveToReplace s st2 => simp [filter_factory, hf]

/-- Witness for C3: a legacy filter returning None falls back to the
default filter, and one returning the stash name found short-circuits
it. -/
theorem legacy_filter_wrapper_fallback_witness :
    filter_factory (fun _ => FilterResult.undecided)
        (fun _ => FilterResult.moveTo "active") ⟨0, Except.ok []⟩
      = (fun _ : SimState => FilterResult.moveTo "active") ⟨0, Except.ok []⟩ ∧
    filter_factory (fun _ => FilterResult.moveTo "found")
        (fun _ => FilterResult.moveTo "active") ⟨0, Except.ok []⟩
      = (fun _ : SimState => FilterResult.moveTo "found") ⟨0, Except.ok []⟩ := by
  constructor
  · exact (legacy_filter_wrapper_fallback "state" (fun _ => FilterResult.undecided)
      (fun _ => FilterResult.moveTo "active") (fun _ => FilterResult.moveTo "deadended")
      ⟨0, Except.ok []⟩ (by decide)).2.1 rfl
  · exact ((legacy_filter_wrapper_fallback "state" (fun _ => FilterResult.moveTo "found")
      (fun _ => FilterResult.moveTo "active") (fun _ => FilterResult.moveTo "deadended")
      ⟨0, Except.ok []⟩ (by decide)).2.2
      (fun hcon => FilterResult.noConfusion hcon)).1

/-- C4: compiling a single integer address produces exactly the matcher
of the one-element set condition, the static address set is the singleton
of that address, and a state sitting at that address matches with the
truthy singleton set. -/
theorem int_condition_normalizes_to_singleton_set (a : Nat) (e d d2 : Bool)
    (state : SimState) (h : state.addr = a) :
    condToLambda e (Condition.int a) d = condToLambda e (Condition.seq [a]) d2 ∧
    ([a].toFinset : Finset Nat) = {a} ∧
    condition_function e ([a].toFinset) state = Except.ok (CondResult.addrs {a}) ∧
    truthy (CondResult.addrs ({a} : Finset Nat)) = true := by
  refine ⟨rfl, by simp, ?_, by simp [truthy]⟩
  simp [condition_function, h]

/-- Witness for C4 at address 100 with a state at address 100. -/
theorem int_condition_normalizes_witness :
    condToLambda true (Condition.int 100) false
      = condToLambda true (Condition.seq [100]) false ∧
    condition_function true ([100].toFinset) ⟨100, Except.ok []⟩
      = Except.ok (CondResult.addrs {100}) := by
  have h := int_condition_normalizes_to_singleton_set 100 true false false
    ⟨100, Except.ok []⟩ rfl
  exact ⟨h.1, h.2.2.1⟩

/-- C5: compiling the condition None with caller default d yields the
constant predicate returning the bool d for every state, and the empty
static address set; the bool false is falsy. -/
theorem none_condition_constant_default (e : Bool) (d : Bool) (state : SimState) :
    condToLambda e Condition.none d
      = Except.ok (noneCondFun d, some (∅ : Finset Nat)) ∧
    noneCondFun d state = Except.ok (CondResult.bool d) ∧
    truthy (CondResult.bool false) = false :=
  ⟨rfl, rfl, rfl⟩

/-- C6: compiling a condition of unsupported shape raises the
AngrExplorationTechniqueError synchronously, no matcher is produced, and
the message names the class of the offending condition. -/
theorem unsupported_condition_raises (e : Bool) (t : String) (d : Bool) :
    condToLambda e (Condition.other t) d
      = Except.error (TechError.angrExplorationTechniqueError (unsupportedMsg t)) ∧
    unsupportedMsg t = "ExplorationTechnique is unable to convert given type ("
        ++ t ++ ") to a callable condition function." :=
  ⟨rfl, rfl⟩

/-- C7: compiling a callable condition f returns f itself unchanged as
the predicate and None as the static address set. -/
theorem callable_condition_passthrough (e : Bool)
    (f : SimState → Except PyErr CondResult) (d : Bool) :
    condToLambda e (Condition.callable f) d = Except.ok (f, Option.none) :=
  rfl

/-- C8: every predicate produced by the matcher compiler is referentially
transparent with respect to state content: on two states with the same
address and the same block-introspection outcome, it returns the same
result. -/
theorem matcher_deterministic (e : Bool) (c : Condition) (d : Bool)
    (p : SimState → Except PyErr CondResult) (sa : Option (Finset Nat))
    (_hc : condToLambda e c d = Except.ok (p, sa))
    (s1 s2 : SimState) (ha : s1.addr = s2.addr)
    (hb : s1.blockInstructionAddrs = s2.blockInstructionAddrs) :
    p s1 = p s2 := by
  cases s1 with
  | mk a1 b1 =>
    cases s2 with
    | mk a2 b2 =>
      have ha2 : a1 = a2 := ha
      have hb2 : b1 = b2 := hb
      subst ha2
      subst hb2
      rfl

/-- Witness for C8: the matcher compiled from the condition None applied
twice to one concrete state. -/
theorem matcher_deterministic_witness :
    noneCondFun false ⟨0, Except.ok []⟩ = noneCondFun false ⟨0, Except.ok []⟩ :=
  matcher_deterministic true Condition.none false (noneCondFun false)
    (some ∅) rfl ⟨0, Except.ok []⟩ ⟨0, Except.ok []⟩ rfl rfl

/-- C9: the two assert statements of select.run require writefds and
exceptfds to be non-symbolic and concretely zero.  First part: whenever
either argument is symbolic or concretizes to a nonzero value, run raises
AssertionError with no fd-set word loaded or stored and the memory
untouched.  Second part: under the asserted precondition the assertion
branch is unreachable, run never terminates with AssertionError. -/
theorem select_assert_gate :
    (∀ (st : SelState) (archBits : Nat)
        (nfds readfds writefds exceptfds timeout : BVExpr),
      (bvSymbolic writefds = true ∨ evalBV st.env writefds ≠ 0 ∨
       bvSymbolic exceptfds = true ∨ evalBV st.env exceptfds ≠ 0) →
      (selectRun st archBits nfds readfds writefds exceptfds timeout).result
          = Except.error SelectErr.assertionError ∧
      (selectRun st archBits nfds readfds writefds exceptfds timeout).loads = [] ∧
      (selectRun st archBits nfds readfds writefds exceptfds timeout).stores = [] ∧
      (selectRun st archBits nfds readfds writefds exceptfds timeout).mem = st.mem)
  ∧ (∀ (st : SelState) (archBits : Nat)
        (nfds readfds writefds exceptfds timeout : BVExpr),
      bvSymbolic writefds = false → evalBV st.env writefds = 0 →
      bvSymbolic exceptfds = false → evalBV st.env exceptfds = 0 →
      (selectRun st archBits nfds readfds writefds exceptfds timeout).result
        ≠ Except.error SelectErr.assertionError) := by
  constructor
  · intro st archBits nfds readfds writefds exceptfds timeout h
    rcases h with hw | hw | he | he
    · have h1 : (bvSymbolic writefds || evalBV st.env writefds != 0) = true := by
        simp [hw]
      simp [selectRun, h1]
    · have h1 : (bvSymbolic writefds || evalBV st.env writefds != 0) = true := by
        simp [hw]
      simp [selectRun, h1]
    · by_cases h1 : (bvSymbolic writefds || evalBV st.env writefds != 0) = true
      · simp [selectRun, h1]
      · have h2 : (bvSymbolic exceptfds || evalBV st.env exceptfds != 0) = true := by
          simp [he]
        simp [selectRun, h1, h2]
    · by_cases h1 : (bvSymbolic writefds || evalBV st.env writefds != 0) = true
      · simp [selectRun, h1]
      · have h2 : (bvSymbolic exceptfds || evalBV st.env exceptfds != 0) = true := by
          simp [he]
        simp [selectRun, h1, h2]
  · intro st archBits nfds readfds writefds exceptfds timeout hw1 hw2 he1 he2
    have h1 : (bvSymbolic writefds || evalBV st.env writefds != 0) = false := by
      simp [hw1, hw2]
    have h2 : (bvSymbolic exceptfds || evalBV st.env exceptfds != 0) = false := by
      simp [he1, he2]
    simp only [selectRun, h1, h2, Bool.false_eq_true, if_false]
    split
    · simp
    · simp

/-- Witness for C9: with a symbolic writefds argument run raises
AssertionError touching no memory, and with concretely zero writefds and
exceptfds it does not raise AssertionError. -/
theorem select_assert_gate_witness :
    ((selectRun ⟨fun _ => BVExpr.bvv 0 64, fun _ => 0⟩ 64 (BVExpr.bvv 1 32)
        (BVExpr.bvv 0 64) (BVExpr.bvs "w" 64) (BVExpr.bvv 0 64)
        (BVExpr.bvv 0 64)).result = Except.error SelectErr.assertionError ∧
      (selectRun ⟨fun _ => BVExpr.bvv 0 64, fun _ => 0⟩ 64 (BVExpr.bvv 1 32)
        (BVExpr.bvv 0 64) (BVExpr.bvs "w" 64) (BVExpr.bvv 0 64)
        (BVExpr.bvv 0 64)).loads = [] ∧
      (selectRun ⟨fun _ => BVExpr.bvv 0 64, fun _ => 0⟩ 64 (BVExpr.bvv 1 32)
        (BVExpr.bvv 0 64) (BVExpr.bvs "w" 64) (BVExpr.bvv 0 64)
        (BVExpr.bvv 0 64)).stores = [] ∧
      (selectRun ⟨fun _ => BVExpr.bvv 0 64, fun _ => 0⟩ 64 (BVExpr.bvv 1 32)
        (BVExpr.bvv 0 64) (BVExpr.bvs "w" 64) (BVExpr.bvv 0 64)
        (BVExpr.bvv 0 64)).mem
        = (⟨fun _ => BVExpr.bvv 0 64, fun _ => 0⟩ : SelState).mem) ∧
    (selectRun ⟨fun _ => BVExpr.bvv 0 64, fun _ => 0⟩ 64 (BVExpr.bvv 1 32)
        (BVExpr.bvv 0 64) (BVExpr.bvv 0 64) (BVExpr.bvv 0 64)
        (BVExpr.bvv 0 64)).result ≠ Except.error SelectErr.assertionError := by
  constructor
  · exact select_assert_gate.1 ⟨fun _ => BVExpr.bvv 0 64, fun _ => 0⟩ 64
      (BVExpr.bvv 1 32) (BVExpr.bvv 0 64) (BVExpr.bvs "w" 64) (BVExpr.bvv 0 64)
      (BVExpr.bvv 0 64) (Or.inl rfl)
  · exact select_assert_gate.2 ⟨fun _ => BVExpr.bvv 0 64, fun _ => 0⟩ 64
      (BVExpr.bvv 1 32) (BVExpr.bvv 0 64) (BVExpr.bvv 0 64) (BVExpr.bvv 0 64)
      (BVExpr.bvv 0 64) rfl rfl rfl rfl

/-- C10 counterexample: a call that satisfies the asserted preconditions
(writefds and exceptfds concretely zero and non-symbolic) with nfds
concretizing to 2 on a 64-bit architecture makes run raise IndexError
instead of returning: long_array_size is (2 - 1 + 7) / 64 = 0, so the
long array is empty, yet the bit loop runs for i = 0 and subscripts
long_array[0]. -/
theorem select_return_counterexample :
    bvSymbolic (BVExpr.bvv 0 64) = false ∧
    evalBV (fun _ => 0) (BVExpr.bvv 0 64) = 0 ∧
    (selectRun ⟨fun _ => BVExpr.bvv 0 64, fun _ => 0⟩ 64
        (BVExpr.bvv 2 32) (BVExpr.bvv 0 64) (BVExpr.bvv 0 64) (BVExpr.bvv 0 64)
        (BVExpr.bvv 0 64)).result = Except.error SelectErr.indexError :=
  ⟨rfl, rfl, rfl⟩

/-- C10 amended: whenever select.run returns normally, the returned value
is BVV(0,1).concat(BVS(select_ret,31)): a constant 0 bit concatenated
with a 31-bit symbol, 32 bits wide, whose numeric value under every
assignment of the symbols is below 2 to the 31, so its most significant
bit is always 0. -/
theorem select_retval_msb_zero (st : SelState) (archBits : Nat)
    (nfds readfds writefds exceptfds timeout : BVExpr) (v : BVExpr)
    (env : String → Nat)
    (h : (selectRun st archBits nfds readfds writefds exceptfds timeout).result
      = Except.ok v) :
    v = BVExpr.concat (BVExpr.bvv 0 1) (BVExpr.bvs "select_ret" 31) ∧
    bvWidth v = 32 ∧
    evalBV env v < 2 ^ 31 ∧
    Nat.testBit (evalBV env v) 31 = false := by
  have hv : v = BVExpr.concat (BVExpr.bvv 0 1) (BVExpr.bvs "select_ret" 31) := by
    unfold selectRun at h
    split at h
    · simp at h
    · split at h
      · simp at h
      · dsimp only at h
        split at h
        · simp at h
        · simp at h
          exact h.symm
  subst hv
  refine ⟨rfl, rfl, ?_, ?_⟩
  · have hev : evalBV env (BVExpr.concat (BVExpr.bvv 0 1) (BVExpr.bvs "select_ret" 31))
        = env "select_ret" % 2 ^ 31 := by
      simp [evalBV, bvWidth]
    rw [hev]
    exact Nat.mod_lt _ (by norm_num)
  · apply Nat.testBit_eq_false_of_lt
    have hev : evalBV env (BVExpr.concat (BVExpr.bvv 0 1) (BVExpr.bvs "select_ret" 31))
        = env "select_ret" % 2 ^ 31 := by
      simp [evalBV, bvWidth]
    rw [hev]
    exact Nat.mod_lt _ (by norm_num)

/-- Witness for the amended C10: a successful run (nfds concretizing to 1,
so the fd loop is empty) returns the 32-bit value with most significant
bit 0. -/
theorem select_retval_msb_zero_witness :
    (BVExpr.concat (BVExpr.bvv 0 1) (BVExpr.bvs "select_ret" 31)
      = BVExpr.concat (BVExpr.bvv 0 1) (BVExpr.bvs "select_ret" 31)) ∧
    bvWidth (BVExpr.concat (BVExpr.bvv 0 1) (BVExpr.bvs "select_ret" 31)) = 32 ∧
    evalBV (fun _ => 12345)
        (BVExpr.concat (BVExpr.bvv 0 1) (BVExpr.bvs "select_ret" 31)) < 2 ^ 31 ∧
    Nat.testBit (evalBV (fun _ => 12345)
        (BVExpr.concat (BVExpr.bvv 0 1) (BVExpr.bvs "select_ret" 31))) 31 = false :=
  select_retval_msb_zero ⟨fun _ => BVExpr.bvv 0 64, fun _ => 0⟩ 64
    (BVExpr.bvv 1 32) (BVExpr.bvv 0 64) (BVExpr.bvv 0 64) (BVExpr.bvv 0 64)
    (BVExpr.bvv 0 64) (BVExpr.concat (BVExpr.bvv 0 1) (BVExpr.bvs "select_ret" 31))
    (fun _ => 12345) rfl

end AngrModel
